import Mathlib

/- Shallow embedding of src/app.py, the "Academic Integrity Simulator": a
Streamlit chat app whose handler appends the user's utterance to the session
log, asks a Gemini model for a "student" answer (get_ai_response with the
student persona and the session log as chat history), optionally asks a second
model call to judge that answer (integrity-checker persona, no history), and
appends the resulting assistant turn.

The remote endpoint and the Streamlit runtime are external: one
generate_content attempt is modelled by an `ApiOutcome` (its response text, or
the exception class it raises), supplied per attempt by a stub function, and
an st.warning / st.error banner by an `Event`. Everything else (prompt
composition, the retry logic, the handler's branching and the session-log
updates) is translated directly from the source. -/

/-- One entry of st.session_state.messages: a dict with keys "role",
"content" and, sometimes, "analysis" (app.py lines 98, 117-133). -/
structure Turn where
  role : String
  content : String
  analysis : Option String := none
deriving DecidableEq, Repr

/-- What one model.generate_content attempt does: return a response whose
.text is `text` (possibly empty), raise ResourceExhausted (the rate-limit
class caught at app.py line 30), or raise any other exception, carrying the
exception's message text. -/
inductive ApiOutcome where
  | ok (text : String)
  | rateLimited (detail : String)
  | failure (detail : String)
deriving DecidableEq, Repr

/-- A banner shown to the user: st.warning or st.error. -/
inductive Event where
  | warning (msg : String)
  | error (msg : String)
deriving DecidableEq, Repr

/-- Whether an event is an st.warning banner. -/
def Event.isWarning : Event → Bool
  | .warning _ => true
  | .error _ => false

/-- Role label used when replaying history into the prompt:
`"User" if message["role"] == "user" else "Student"` (app.py line 22). -/
def roleLabel (r : String) : String :=
  if r = "user" then "User" else "Student"

/-- Python truthiness of the chat_history argument at app.py line 20:
None and the empty list are falsy, a non-empty list is truthy. -/
def historyTruthy (ch : Option (List Turn)) : Bool :=
  match ch with
  | none => false
  | some h => !h.isEmpty

/-- The full_prompt built by get_ai_response (app.py lines 18-25): the
persona, a blank line, one "Role: content" line per history message when
chat_history is truthy, and the terminal line with the current prompt in
double quotes. -/
def compose (persona : String) (chat_history : Option (List Turn))
    (prompt : String) : String :=
  let fp := persona ++ "\n\n"
  let fp :=
    if historyTruthy chat_history then
      (chat_history.getD []).foldl
        (fun acc m => acc ++ roleLabel m.role ++ ": " ++ m.content ++ "\n") fp
    else fp
  fp ++ "User: \"" ++ prompt ++ "\""

/-- Python `response.text if response and response.text else None`
(app.py lines 28 and 36): an empty completion text yields None. -/
def respText (t : String) : Option String :=
  if t = "" then none else some t

/-- Observable record of one get_ai_response call: its return value, the
prompt sent on each generate_content attempt, the time.sleep durations, and
the banners it showed. -/
structure ApiCallResult where
  result : Option String
  sent_prompts : List String
  sleeps : List Nat
  events : List Event
deriving DecidableEq, Repr

/-- get_ai_response (app.py lines 8-43). `secrets` is the
st.secrets GEMINI_API_KEY lookup: `none` means the key is missing, so the
lookup at line 14 raises before any prompt is composed or any attempt is
made, and the generic handler at line 41 turns that into an error banner and
None. Otherwise the full prompt is composed and sent; a ResourceExhausted
outcome triggers the warning banner, a 30-second sleep and exactly one
retried attempt, whose own exception (of any class) is caught at line 37. -/
def get_ai_response (secrets : Option String) (outcomes : Nat → ApiOutcome)
    (prompt persona : String) (chat_history : Option (List Turn)) :
    ApiCallResult :=
  match secrets with
  | none =>
      ⟨none, [], [],
       [.error "An API error occurred: missing key GEMINI_API_KEY"]⟩
  | some _ =>
      let full_prompt := compose persona chat_history prompt
      match outcomes 0 with
      | .ok t => ⟨respText t, [full_prompt], [], []⟩
      | .failure d =>
          ⟨none, [full_prompt], [],
           [.error ("An API error occurred: " ++ d)]⟩
      | .rateLimited _ =>
          match outcomes 1 with
          | .ok t =>
              ⟨respText t, [full_prompt, full_prompt], [30],
               [.warning "API rate limit reached. Waiting 30 seconds before retrying..."]⟩
          | .rateLimited d | .failure d =>
              ⟨none, [full_prompt, full_prompt], [30],
               [.warning "API rate limit reached. Waiting 30 seconds before retrying...",
                .error ("An API error occurred on retry: " ++ d)]⟩

/-- STUDENT_PERSONA (app.py lines 47-54). -/
def STUDENT_PERSONA : String :=
  "You are an AI simulating a high school student. " ++
  "When given a topic or question, you must respond as a student would. " ++
  "You can explain concepts in your own simple words, ask clarifying questions if you're unsure, " ++
  "or admit if a topic is too difficult. Your tone should be curious and conversational. " ++
  "Crucially, you must decide on a 'honesty' level for each response. Sometimes, generate a response that is clearly your own simple understanding. " ++
  "Other times, generate a response that is overly formal, too perfect, or uses complex vocabulary, as if you copied it directly from a textbook or another AI without citing it."

/-- INTEGRITY_CHECKER_PERSONA (app.py lines 56-62). -/
def INTEGRITY_CHECKER_PERSONA : String :=
  "You are an AI that acts as an Academic Integrity Officer or a plagiarism detector. " ++
  "Your task is to analyze a given text, which is a response from a 'student'. " ++
  "Based on the language, tone, complexity, and sentence structure, determine if the response seems like the student's own original work or if it shows signs of potential plagiarism (e.g., copied from a textbook, an AI, or a website). " ++
  "Provide a brief, one-paragraph analysis explaining your reasoning and then give a final verdict. " ++
  "The verdict must be one of two options: 'Verdict: ✅ Likely Original Work' or 'Verdict: ⚠️ Potential Plagiarism Detected'."

/-- Arguments of one get_ai_response invocation made by the handler. -/
structure CallRecord where
  prompt : String
  persona : String
  chat_history : Option (List Turn)
deriving DecidableEq, Repr

/-- Inputs of one script rerun reaching the chat_input handler: the
chat_input value (none when nothing was submitted), the sidebar checkbox,
the secrets store, and the stubbed endpoint outcomes for the two possible
get_ai_response calls of this turn. -/
structure StepInput where
  prompt : Option String
  run_integrity_check : Bool
  secrets : Option String
  stage1 : Nat → ApiOutcome
  stage2 : Nat → ApiOutcome

/-- Observable outcome of one handler run: the new session log, the banners
shown by the handler and its get_ai_response calls, and the arguments of each
get_ai_response invocation, in order. -/
structure StepResult where
  messages : List Turn
  events : List Event
  calls : List CallRecord

/-- Body of the chat_input handler (app.py lines 98-135) once a truthy
prompt `p` was submitted: the user turn is appended first, the student call
gets the whole updated log as history, and the branches follow lines
106-135; `if student_response:` and `if integrity_analysis:` are Python
truthiness tests, so an empty string behaves like None there. -/
def chatBody (state : List Turn) (inp : StepInput) (p : String) : StepResult :=
      let messages1 := state ++ [⟨"user", p, none⟩]
      let call1 : CallRecord := ⟨p, STUDENT_PERSONA, some messages1⟩
      let r1 := get_ai_response inp.secrets inp.stage1 p STUDENT_PERSONA
        (some messages1)
      match r1.result with
      | none =>
          ⟨messages1,
           r1.events ++ [.error "The AI student didn't provide a response."],
           [call1]⟩
      | some student_response =>
        if student_response = "" then
          ⟨messages1,
           r1.events ++ [.error "The AI student didn't provide a response."],
           [call1]⟩
        else if inp.run_integrity_check then
          let r2 := get_ai_response inp.secrets inp.stage2 student_response
            INTEGRITY_CHECKER_PERSONA none
          let call2 : CallRecord :=
            ⟨student_response, INTEGRITY_CHECKER_PERSONA, none⟩
          match r2.result with
          | some analysis_text =>
            if analysis_text = "" then
              ⟨messages1 ++ [⟨"assistant", student_response, none⟩],
               r1.events ++ r2.events ++
                 [.error "The integrity checker could not provide an analysis."],
               [call1, call2]⟩
            else
              ⟨messages1 ++ [⟨"assistant", student_response, some analysis_text⟩],
               r1.events ++ r2.events ++ [.warning analysis_text],
               [call1, call2]⟩
          | none =>
            ⟨messages1 ++ [⟨"assistant", student_response, none⟩],
             r1.events ++ r2.events ++
               [.error "The integrity checker could not provide an analysis."],
             [call1, call2]⟩
        else
          ⟨messages1 ++ [⟨"assistant", student_response, none⟩],
           r1.events, [call1]⟩

/-- The chat_input handler (app.py lines 97-135) acting on
st.session_state.messages. Python's walrus-if skips the whole body when
st.chat_input yields a falsy value (None, or the empty string), so the log
is untouched, no banner is shown and no get_ai_response call is made. -/
def chatStep (state : List Turn) (inp : StepInput) : StepResult :=
  match inp.prompt with
  | none => ⟨state, [], []⟩
  | some p => if p = "" then ⟨state, [], []⟩ else chatBody state inp p

/-- Session states reachable from the fresh session (messages initialised to
the empty list at app.py lines 85-86) by handler runs. -/
inductive Reachable : List Turn → Prop where
  | start : Reachable []
  | next (s : List Turn) (inp : StepInput) :
      Reachable s → Reachable (chatStep s inp).messages

/-- Invariant of the session log: a turn carrying an analysis field is an
assistant turn. -/
def AnalysisInv (s : List Turn) : Prop :=
  ∀ t ∈ s, t.analysis.isSome → t.role = "assistant"

/-- Concatenation of one rendered line per turn. -/
def joinLines (f : Turn → String) : List Turn → String
  | [] => ""
  | t :: ts => f t ++ joinLines f ts

/-- The history line the source's loop body appends for one message. -/
def codeLine (m : Turn) : String :=
  roleLabel m.role ++ ": " ++ m.content ++ "\n"

/-- Role label as the spec words it: User turns render as "User", Assistant
turns render as "Student"; other roles are outside the spec's mapping. -/
def specRoleLabel (r : String) : String :=
  if r = "user" then "User" else if r = "assistant" then "Student" else ""

/-- One history line of the spec's composition formula. -/
def specHistoryLine (t : Turn) : String :=
  specRoleLabel t.role ++ ": " ++ t.content ++ "\n"

/-- The spec's composition formula, written as the spec words it: persona
text, a blank line, one labelled line per history turn in order, then the
terminal line with the user text in double quotes. -/
def specCompose (persona : String) (h : List Turn) (u : String) : String :=
  persona ++ "\n\n" ++ joinLines specHistoryLine h ++ ("User: \"" ++ u ++ "\"")

/-- Number of (possibly overlapping) occurrences of `n` in a character list. -/
def occCount (n : List Char) : List Char → Nat
  | [] => 0
  | c :: rest =>
      (if (c :: rest).take n.length = n then 1 else 0) + occCount n rest

/-- Number of occurrences of `needle` in `hay`. -/
def strOccCount (needle hay : String) : Nat :=
  occCount needle.data hay.data

/-- Concrete run: student stub answers "ans", integrity stub raises a
non-rate-limit exception. -/
def inpStage2Down : StepInput :=
  ⟨some "q", true, some "k", fun _ => .ok "ans", fun _ => .failure "boom"⟩

/-- Concrete run: the student stub raises a non-rate-limit exception. -/
def inpStage1Down : StepInput :=
  ⟨some "q", true, some "k", fun _ => .failure "down", fun _ => .ok "v"⟩

/-- Concrete run: the student stub succeeds with empty completion text. -/
def inpStage1Empty : StepInput :=
  ⟨some "g", true, some "k", fun _ => .ok "", fun _ => .ok "v"⟩

/-- Concrete run: user text "zzq" (a string occurring nowhere else), student
stub answers "ans", integrity check disabled. -/
def inpHistoryProbe : StepInput :=
  ⟨some "zzq", false, some "k", fun _ => .ok "ans", fun _ => .ok "v"⟩

/-- Concrete run: both stages succeed. -/
def inpBothOk : StepInput :=
  ⟨some "q", true, some "k", fun _ => .ok "ans", fun _ => .ok "Verdict"⟩

/-- Concrete run: the empty string is submitted. -/
def inpEmptyPrompt : StepInput :=
  ⟨some "", true, some "k", fun _ => .ok "a", fun _ => .ok "b"⟩

set_option maxRecDepth 400000

/-- Folding the source's line-appending loop body over a history equals the
initial accumulator followed by the joined lines. -/
lemma foldl_line_eq (f : Turn → String) :
    ∀ (h : List Turn) (fp : String),
      List.foldl (fun acc m => acc ++ f m) fp h = fp ++ joinLines f h := by
  intro h
  induction h with
  | nil => intro fp; simp [joinLines]
  | cons t ts ih =>
      intro fp
      simp only [List.foldl_cons, joinLines, ih, String.append_assoc]

/-- joinLines only depends on the rendered line of each turn. -/
lemma joinLines_congr (f g : Turn → String) (hfg : ∀ t, f t = g t) :
    ∀ l, joinLines f l = joinLines g l := by
  intro l
  induction l with
  | nil => rfl
  | cons t ts ih => simp [joinLines, hfg, ih]

/-- compose on an explicit history list, with the truthiness branching
resolved: the empty history contributes nothing either way. -/
lemma compose_some (p u : String) (h : List Turn) :
    compose p (some h) u =
      p ++ "\n\n" ++ joinLines codeLine h ++ ("User: \"" ++ u ++ "\"") := by
  have hbody : (fun (acc : String) (m : Turn) =>
      acc ++ roleLabel m.role ++ ": " ++ m.content ++ "\n") =
      fun acc m => acc ++ codeLine m := by
    funext acc m
    simp [codeLine, String.append_assoc]
  cases h with
  | nil =>
      simp only [compose, historyTruthy, joinLines, Bool.not_true,
        List.isEmpty_nil, Bool.false_eq_true, if_false, String.append_empty,
        String.append_assoc]
  | cons t ts =>
      simp only [compose, historyTruthy, List.isEmpty_cons, Bool.not_false,
        if_true, Option.getD_some, hbody, foldl_line_eq, String.append_assoc]
      rw [joinLines_congr _ codeLine
        (fun m => by simp [codeLine, String.append_assoc])]

/-- get_ai_response never returns the empty string as a success: respText
filters it to None on both the first attempt and the retry. -/
lemma get_ai_response_result_ne_empty (secrets : Option String)
    (outcomes : Nat → ApiOutcome) (prompt persona : String)
    (chat_history : Option (List Turn)) :
    (get_ai_response secrets outcomes prompt persona chat_history).result ≠
      some "" := by
  unfold get_ai_response
  cases secrets with
  | none => simp
  | some k =>
      cases h0 : outcomes 0 with
      | ok t => simp [respText]
      | failure d => simp
      | rateLimited d =>
          cases h1 : outcomes 1 with
          | ok t => simp [respText]
          | failure d2 => simp
          | rateLimited d2 => simp

/-- chatStep runs the handler body on a truthy submitted prompt. -/
lemma chatStep_eq_body (s : List Turn) (inp : StepInput) (p : String)
    (hp : inp.prompt = some p) (hne : p ≠ "") :
    chatStep s inp = chatBody s inp p := by
  unfold chatStep
  rw [hp]
  simp [hne]

/-- When stage 1 yields None, only the user turn is appended, the student
error banner is shown, and only the student call was made. -/
lemma chatBody_stage1_fail (s : List Turn) (inp : StepInput) (p : String)
    (h1 : (get_ai_response inp.secrets inp.stage1 p STUDENT_PERSONA
      (some (s ++ [⟨"user", p, none⟩]))).result = none) :
    chatBody s inp p =
      ⟨s ++ [⟨"user", p, none⟩],
       (get_ai_response inp.secrets inp.stage1 p STUDENT_PERSONA
         (some (s ++ [⟨"user", p, none⟩]))).events ++
         [.error "The AI student didn't provide a response."],
       [⟨p, STUDENT_PERSONA, some (s ++ [⟨"user", p, none⟩])⟩]⟩ := by
  simp only [chatBody, h1]

/-- When stage 1 succeeds but the enabled stage 2 yields None, the assistant
turn is appended without analysis and the integrity-checker error banner is
shown. -/
lemma chatBody_stage2_fail (s : List Turn) (inp : StepInput) (p a : String)
    (h1 : (get_ai_response inp.secrets inp.stage1 p STUDENT_PERSONA
      (some (s ++ [⟨"user", p, none⟩]))).result = some a)
    (hON : inp.run_integrity_check = true)
    (h2 : (get_ai_response inp.secrets inp.stage2 a INTEGRITY_CHECKER_PERSONA
      none).result = none) :
    chatBody s inp p =
      ⟨(s ++ [⟨"user", p, none⟩]) ++ [⟨"assistant", a, none⟩],
       ((get_ai_response inp.secrets inp.stage1 p STUDENT_PERSONA
          (some (s ++ [⟨"user", p, none⟩]))).events ++
        (get_ai_response inp.secrets inp.stage2 a INTEGRITY_CHECKER_PERSONA
          none).events) ++
         [.error "The integrity checker could not provide an analysis."],
       [⟨p, STUDENT_PERSONA, some (s ++ [⟨"user", p, none⟩])⟩,
        ⟨a, INTEGRITY_CHECKER_PERSONA, none⟩]⟩ := by
  have ha : a ≠ "" := by
    intro h
    rw [h] at h1
    exact get_ai_response_result_ne_empty _ _ _ _ _ h1
  simp only [chatBody, h1, hON, if_neg ha, if_true, h2]

/-- The possible session-log updates of one handler body run. -/
lemma chatBody_messages_shape (s : List Turn) (inp : StepInput) (p : String) :
    (chatBody s inp p).messages = s ++ [⟨"user", p, none⟩] ∨
    (∃ sr : String,
      (chatBody s inp p).messages =
        s ++ [⟨"user", p, none⟩] ++ [⟨"assistant", sr, none⟩]) ∨
    (∃ sr a : String,
      inp.run_integrity_check = true ∧
      (get_ai_response inp.secrets inp.stage2 sr INTEGRITY_CHECKER_PERSONA
        none).result = some a ∧
      (chatBody s inp p).messages =
        s ++ [⟨"user", p, none⟩] ++ [⟨"assistant", sr, some a⟩]) := by
  cases h1 : (get_ai_response inp.secrets inp.stage1 p STUDENT_PERSONA
      (some (s ++ [⟨"user", p, none⟩]))).result with
  | none =>
      left
      simp only [chatBody, h1]
  | some sr =>
      by_cases hsr : sr = ""
      · left
        simp only [chatBody, h1, if_pos hsr]
      · cases hON : inp.run_integrity_check with
        | false =>
            right; left
            exact ⟨sr, by simp only [chatBody, h1, if_neg hsr, hON]; simp⟩
        | true =>
            cases h2 : (get_ai_response inp.secrets inp.stage2 sr
                INTEGRITY_CHECKER_PERSONA none).result with
            | none =>
                right; left
                exact ⟨sr, by
                  simp only [chatBody, h1, if_neg hsr, hON, h2]; simp⟩
            | some a =>
                have haa : a ≠ "" := by
                  intro h
                  rw [h] at h2
                  exact get_ai_response_result_ne_empty _ _ _ _ _ h2
                right; right
                exact ⟨sr, a, rfl, h2, by
                  simp only [chatBody, h1, if_neg hsr, hON, h2, if_neg haa]
                  simp⟩

/-- The possible get_ai_response invocation lists of one handler body run:
always the student call first, with the updated log as history, and at most
one integrity call, whose prompt is the non-empty student answer. -/
lemma chatBody_calls_shape (s : List Turn) (inp : StepInput) (p : String) :
    (chatBody s inp p).calls =
      [⟨p, STUDENT_PERSONA, some (s ++ [⟨"user", p, none⟩])⟩] ∨
    (∃ sr : String, sr ≠ "" ∧
      (chatBody s inp p).calls =
        [⟨p, STUDENT_PERSONA, some (s ++ [⟨"user", p, none⟩])⟩,
         ⟨sr, INTEGRITY_CHECKER_PERSONA, none⟩]) := by
  cases h1 : (get_ai_response inp.secrets inp.stage1 p STUDENT_PERSONA
      (some (s ++ [⟨"user", p, none⟩]))).result with
  | none =>
      left
      simp only [chatBody, h1]
  | some sr =>
      by_cases hsr : sr = ""
      · left
        simp only [chatBody, h1, if_pos hsr]
      · cases hON : inp.run_integrity_check with
        | false =>
            left
            simp only [chatBody, h1, if_neg hsr, hON]
            simp
        | true =>
            cases h2 : (get_ai_response inp.secrets inp.stage2 sr
                INTEGRITY_CHECKER_PERSONA none).result with
            | none =>
                right
                exact ⟨sr, hsr, by
                  simp only [chatBody, h1, if_neg hsr, hON, h2]; simp⟩
            | some a =>
                right
                refine ⟨sr, hsr, ?_⟩
                by_cases haa : a = ""
                · simp only [chatBody, h1, if_neg hsr, hON, h2, if_pos haa]
                  simp
                · simp only [chatBody, h1, if_neg hsr, hON, h2, if_neg haa]
                  simp

/-- Leaving the handler through its no-submission path changes nothing. -/
lemma chatStep_no_prompt (s : List Turn) (inp : StepInput)
    (hp : inp.prompt = none) : chatStep s inp = ⟨s, [], []⟩ := by
  unfold chatStep
  rw [hp]

/-- Submitting the empty string is falsy for the walrus-if: nothing runs. -/
lemma chatStep_empty_prompt (s : List Turn) (inp : StepInput)
    (hp : inp.prompt = some "") : chatStep s inp = ⟨s, [], []⟩ := by
  unfold chatStep
  rw [hp]
  simp

/-- The possible session-log updates of one full handler run. -/
lemma chatStep_messages_shape (s : List Turn) (inp : StepInput) :
    (chatStep s inp).messages = s ∨
    (∃ p : String, (chatStep s inp).messages = s ++ [⟨"user", p, none⟩]) ∨
    (∃ p sr : String,
      (chatStep s inp).messages =
        s ++ [⟨"user", p, none⟩] ++ [⟨"assistant", sr, none⟩]) ∨
    (∃ p sr a : String,
      inp.run_integrity_check = true ∧
      (get_ai_response inp.secrets inp.stage2 sr INTEGRITY_CHECKER_PERSONA
        none).result = some a ∧
      (chatStep s inp).messages =
        s ++ [⟨"user", p, none⟩] ++ [⟨"assistant", sr, some a⟩]) := by
  cases hp : inp.prompt with
  | none => left; rw [chatStep_no_prompt s inp hp]
  | some p =>
      by_cases hne : p = ""
      · left
        rw [hne] at hp
        rw [chatStep_empty_prompt s inp hp]
      · rw [chatStep_eq_body s inp p hp hne]
        rcases chatBody_messages_shape s inp p with h | ⟨sr, h⟩ | ⟨sr, a, hON, h2, h⟩
        · right; left; exact ⟨p, h⟩
        · right; right; left; exact ⟨p, sr, h⟩
        · right; right; right; exact ⟨p, sr, a, hON, h2, h⟩

/-- C1: for every prompt, a rate-limit-class failure of the first attempt
causes the fixed 30-unit backoff sleep exactly once and exactly one retry
(two attempts total); if the retry also raises, the call's result is the
failure value None; a non-rate-limit failure of the first attempt fails
immediately with one attempt, no retry and no sleep. -/
theorem c1_retry_policy (k : String) (outs : Nat → ApiOutcome)
    (prompt persona : String) (ch : Option (List Turn)) :
    (∀ d, outs 0 = ApiOutcome.rateLimited d →
      (get_ai_response (some k) outs prompt persona ch).sent_prompts.length = 2 ∧
      (get_ai_response (some k) outs prompt persona ch).sleeps = [30] ∧
      ∀ d2, (outs 1 = ApiOutcome.rateLimited d2 ∨ outs 1 = ApiOutcome.failure d2) →
        (get_ai_response (some k) outs prompt persona ch).result = none) ∧
    (∀ d, outs 0 = ApiOutcome.failure d →
      (get_ai_response (some k) outs prompt persona ch).result = none ∧
      (get_ai_response (some k) outs prompt persona ch).sent_prompts.length = 1 ∧
      (get_ai_response (some k) outs prompt persona ch).sleeps = []) := by
  constructor
  · intro d h0
    refine ⟨?_, ?_, ?_⟩
    · unfold get_ai_response
      simp only [h0]
      cases h1 : outs 1 <;> simp
    · unfold get_ai_response
      simp only [h0]
      cases h1 : outs 1 <;> simp
    · intro d2 hd2
      unfold get_ai_response
      simp only [h0]
      rcases hd2 with h1 | h1 <;> simp only [h1]
  · intro d h0
    unfold get_ai_response
    simp only [h0]
    simp

/-- C1 witness: concrete stubs, rate-limited twice and failing outright. -/
theorem c1_retry_policy_witness :
    (get_ai_response (some "k") (fun _ => ApiOutcome.rateLimited "r") "q" "p"
      none).sent_prompts.length = 2 ∧
    (get_ai_response (some "k") (fun _ => ApiOutcome.rateLimited "r") "q" "p"
      none).sleeps = [30] ∧
    (get_ai_response (some "k") (fun _ => ApiOutcome.rateLimited "r") "q" "p"
      none).result = none ∧
    (get_ai_response (some "k") (fun _ => ApiOutcome.failure "x") "q" "p"
      none).result = none ∧
    (get_ai_response (some "k") (fun _ => ApiOutcome.failure "x") "q" "p"
      none).sent_prompts.length = 1 ∧
    (get_ai_response (some "k") (fun _ => ApiOutcome.failure "x") "q" "p"
      none).sleeps = [] := by
  have h1 := (c1_retry_policy "k" (fun _ => ApiOutcome.rateLimited "r") "q" "p"
    none).1 "r" rfl
  have h2 := (c1_retry_policy "k" (fun _ => ApiOutcome.failure "x") "q" "p"
    none).2 "x" rfl
  exact ⟨h1.1, h1.2.1, h1.2.2 "r" (Or.inl rfl), h2.1, h2.2.1, h2.2.2⟩

/-- C2 counterexample: stage 1 succeeds with "ans" and stage 2 raises a
non-rate-limit exception; the turn does succeed with the unchanged answer and
no analysis field, but the partial failure is reported through two st.error
banners and no st.warning banner is shown anywhere in the run, so the
claim's "a non-fatal warning is reported" is false for this turn. -/
theorem c2_counterexample :
    (chatStep [] inpStage2Down).messages =
      [⟨"user", "q", none⟩, ⟨"assistant", "ans", none⟩] ∧
    (chatStep [] inpStage2Down).events =
      [Event.error "An API error occurred: boom",
       Event.error "The integrity checker could not provide an analysis."] ∧
    (chatStep [] inpStage2Down).events.all (fun e => !Event.isWarning e) =
      true :=
  ⟨by decide, by decide, by decide⟩

/-- C2 (amended): for every turn in which stage 1 succeeds and the enabled
stage 2 fails, the turn still succeeds: the assistant turn is appended with
stage 1's output unchanged and no analysis field, and a non-fatal error
banner (st.error, not an st.warning) reports the partial failure. -/
theorem c2_partial_failure_isolation (s : List Turn) (inp : StepInput)
    (p a : String) (hp : inp.prompt = some p) (hne : p ≠ "")
    (h1 : (get_ai_response inp.secrets inp.stage1 p STUDENT_PERSONA
      (some (s ++ [⟨"user", p, none⟩]))).result = some a)
    (hON : inp.run_integrity_check = true)
    (h2 : (get_ai_response inp.secrets inp.stage2 a INTEGRITY_CHECKER_PERSONA
      none).result = none) :
    (chatStep s inp).messages =
      s ++ [⟨"user", p, none⟩, ⟨"assistant", a, none⟩] ∧
    Event.error "The integrity checker could not provide an analysis." ∈
      (chatStep s inp).events := by
  rw [chatStep_eq_body s inp p hp hne, chatBody_stage2_fail s inp p a h1 hON h2]
  exact ⟨by simp, by simp⟩

/-- C2 witness: the amended statement at the concrete stage-2-failure run. -/
theorem c2_partial_failure_isolation_witness :
    (chatStep [] inpStage2Down).messages =
      [⟨"user", "q", none⟩, ⟨"assistant", "ans", none⟩] ∧
    Event.error "The integrity checker could not provide an analysis." ∈
      (chatStep [] inpStage2Down).events :=
  c2_partial_failure_isolation [] inpStage2Down "q" "ans" rfl (by decide)
    (by rfl) rfl (by rfl)

/-- C3: for every turn in which stage 1 fails, the whole turn is aborted: the
session log gains only the user's own utterance, no assistant turn is
appended, and an error banner is shown. -/
theorem c3_stage1_failure_aborts (s : List Turn) (inp : StepInput) (p : String)
    (hp : inp.prompt = some p) (hne : p ≠ "")
    (h1 : (get_ai_response inp.secrets inp.stage1 p STUDENT_PERSONA
      (some (s ++ [⟨"user", p, none⟩]))).result = none) :
    (chatStep s inp).messages = s ++ [⟨"user", p, none⟩] ∧
    Event.error "The AI student didn't provide a response." ∈
      (chatStep s inp).events := by
  rw [chatStep_eq_body s inp p hp hne, chatBody_stage1_fail s inp p h1]
  exact ⟨rfl, by simp⟩

/-- C3 witness: the concrete stage-1-failure run. -/
theorem c3_stage1_failure_aborts_witness :
    (chatStep [] inpStage1Down).messages = [⟨"user", "q", none⟩] ∧
    Event.error "The AI student didn't provide a response." ∈
      (chatStep [] inpStage1Down).events :=
  c3_stage1_failure_aborts [] inpStage1Down "q" rfl (by decide) (by rfl)

/-- C4 counterexample: a success-with-empty-text completion and a transport
failure produce the same return value None: the code exposes no distinct
EmptyResponse error kind, so the caller cannot distinguish the two. -/
theorem c4_counterexample :
    (get_ai_response (some "k") (fun _ => ApiOutcome.ok "") "q" STUDENT_PERSONA
      none).result = none ∧
    (get_ai_response (some "k") (fun _ => ApiOutcome.failure "transport down")
      "q" STUDENT_PERSONA none).result = none ∧
    (get_ai_response (some "k") (fun _ => ApiOutcome.ok "") "q" STUDENT_PERSONA
      none).result =
      (get_ai_response (some "k") (fun _ => ApiOutcome.failure "transport down")
        "q" STUDENT_PERSONA none).result :=
  ⟨rfl, rfl, rfl⟩

/-- C4 (amended): a success-but-empty completion makes the call fail with
the generic failure value None after a single attempt and no sleep — the
same value as any transport/API failure, with no distinct EmptyResponse
kind; when stage 1 returns empty text, the turn fails, no assistant turn is
appended and the student error banner is shown. -/
theorem c4_empty_completion :
    (∀ (k : String) (outs : Nat → ApiOutcome) (p per : String)
        (ch : Option (List Turn)),
      outs 0 = ApiOutcome.ok "" →
        (get_ai_response (some k) outs p per ch).result = none ∧
        (get_ai_response (some k) outs p per ch).sent_prompts.length = 1 ∧
        (get_ai_response (some k) outs p per ch).sleeps = []) ∧
    (∀ (s : List Turn) (inp : StepInput) (q : String),
      inp.prompt = some q → q ≠ "" → inp.stage1 0 = ApiOutcome.ok "" →
      (∃ k, inp.secrets = some k) →
        (chatStep s inp).messages = s ++ [⟨"user", q, none⟩] ∧
        Event.error "The AI student didn't provide a response." ∈
          (chatStep s inp).events) := by
  constructor
  · intro k outs p per ch h0
    unfold get_ai_response
    simp only [h0]
    simp [respText]
  · intro s inp q hq hne h0 hk
    obtain ⟨k, hk⟩ := hk
    have h1 : (get_ai_response inp.secrets inp.stage1 q STUDENT_PERSONA
        (some (s ++ [⟨"user", q, none⟩]))).result = none := by
      rw [hk]
      unfold get_ai_response
      simp only [h0]
      simp [respText]
    rw [chatStep_eq_body s inp q hq hne, chatBody_stage1_fail s inp q h1]
    exact ⟨rfl, by simp⟩

/-- C4 witness: the empty-text stub, alone and inside a turn. -/
theorem c4_empty_completion_witness :
    ((get_ai_response (some "k") (fun _ => ApiOutcome.ok "") "q" "p"
        none).result = none ∧
     (get_ai_response (some "k") (fun _ => ApiOutcome.ok "") "q" "p"
        none).sent_prompts.length = 1 ∧
     (get_ai_response (some "k") (fun _ => ApiOutcome.ok "") "q" "p"
        none).sleeps = []) ∧
    ((chatStep [] inpStage1Empty).messages = [⟨"user", "g", none⟩] ∧
     Event.error "The AI student didn't provide a response." ∈
       (chatStep [] inpStage1Empty).events) := by
  constructor
  · exact c4_empty_completion.1 "k" (fun _ => ApiOutcome.ok "") "q" "p" none rfl
  · exact c4_empty_completion.2 [] inpStage1Empty "g" rfl (by decide) rfl
      ⟨"k", rfl⟩

/-- Rendering the code's history line and the spec's agree on every turn
whose role is "user" or "assistant". -/
lemma joinLines_code_spec : ∀ h : List Turn,
    (∀ t ∈ h, t.role = "user" ∨ t.role = "assistant") →
    joinLines codeLine h = joinLines specHistoryLine h := by
  intro h
  induction h with
  | nil => intro _; rfl
  | cons t ts ih =>
      intro hr
      have hts : ∀ x ∈ ts, x.role = "user" ∨ x.role = "assistant" :=
        fun x hx => hr x (List.mem_cons_of_mem t hx)
      have ht := hr t (List.mem_cons_self t ts)
      show codeLine t ++ joinLines codeLine ts =
        specHistoryLine t ++ joinLines specHistoryLine ts
      rw [ih hts]
      rcases ht with h1 | h1 <;> unfold codeLine specHistoryLine <;>
        rw [h1] <;> rfl

/-- C5: for every persona, history of user/assistant turns and user text,
compose equals the persona text, a blank line, one "RoleLabel: content" line
per history turn in order (user turns labelled User, assistant turns
labelled Student), then the terminal line with the user text in double
quotes; the formula renders exactly one history line per history turn. -/
theorem c5_compose_formula (p u : String) (h : List Turn)
    (hr : ∀ t ∈ h, t.role = "user" ∨ t.role = "assistant") :
    compose p (some h) u = specCompose p h u ∧
    (h.map specHistoryLine).length = h.length := by
  refine ⟨?_, by simp⟩
  rw [compose_some, specCompose, joinLines_code_spec h hr]

/-- C5 witness: a concrete two-turn history. -/
theorem c5_compose_formula_witness :
    compose "P" (some [⟨"user", "a", none⟩, ⟨"assistant", "b", some "x"⟩])
      "q" =
      specCompose "P" [⟨"user", "a", none⟩, ⟨"assistant", "b", some "x"⟩]
        "q" ∧
    (([⟨"user", "a", none⟩,
       (⟨"assistant", "b", some "x"⟩ : Turn)]).map specHistoryLine).length =
      2 :=
  c5_compose_formula "P" "q" _ (by decide)

/-- C6 counterexample: in a fresh session the user submits "zzq" (a string
occurring nowhere else); the single stage-1 call's chat_history is the log
with the current user turn already appended — not the strictly prior, empty
history — and the composed stage-1 prompt contains the current user text
twice (one history line plus the terminal quoted line), not exactly once. -/
theorem c6_counterexample :
    (chatStep [] inpHistoryProbe).calls =
      [⟨"zzq", STUDENT_PERSONA, some [⟨"user", "zzq", none⟩]⟩] ∧
    strOccCount "zzq"
      (compose STUDENT_PERSONA (some [⟨"user", "zzq", none⟩]) "zzq") = 2 :=
  ⟨by decide, by decide⟩

/-- C6 (amended): for every turn with a truthy prompt, the stage-1 call's
history is the session log with the current user turn already appended, so
the current user text is rendered both as the last history line and as the
terminal quoted line of the composed stage-1 prompt. -/
theorem c6_history_includes_current (s : List Turn) (inp : StepInput)
    (p : String) (hp : inp.prompt = some p) (hne : p ≠ "") :
    (chatStep s inp).calls.head? =
      some ⟨p, STUDENT_PERSONA, some (s ++ [⟨"user", p, none⟩])⟩ := by
  rw [chatStep_eq_body s inp p hp hne]
  rcases chatBody_calls_shape s inp p with h | ⟨sr, _, h⟩ <;> rw [h] <;> rfl

/-- C6 witness: the concrete "zzq" run. -/
theorem c6_history_includes_current_witness :
    (chatStep [] inpHistoryProbe).calls.head? =
      some ⟨"zzq", STUDENT_PERSONA, some [⟨"user", "zzq", none⟩]⟩ :=
  c6_history_includes_current [] inpHistoryProbe "zzq" rfl (by decide)

/-- The joined history lines only depend on each turn's role and content. -/
lemma joinLines_role_content : ∀ h1 h2 : List Turn,
    h1.map (fun t => (t.role, t.content)) =
      h2.map (fun t => (t.role, t.content)) →
    joinLines codeLine h1 = joinLines codeLine h2 := by
  intro h1
  induction h1 with
  | nil =>
      intro h2 hrc
      cases h2 with
      | nil => rfl
      | cons t ts => simp at hrc
  | cons t ts ih =>
      intro h2 hrc
      cases h2 with
      | nil => simp at hrc
      | cons t2 ts2 =>
          simp only [List.map_cons, List.cons.injEq, Prod.mk.injEq] at hrc
          obtain ⟨⟨hr, hc⟩, htl⟩ := hrc
          show codeLine t ++ joinLines codeLine ts =
            codeLine t2 ++ joinLines codeLine ts2
          rw [ih ts2 htl]
          unfold codeLine
          rw [hr, hc]

/-- C7: the composed prompt is independent of the analysis fields of the
history turns — two histories agreeing in roles and contents compose to
identical prompts, so an analysis string never reaches the prompt through
its own field. -/
theorem c7_analysis_independence (p u : String) (h1 h2 : List Turn)
    (hrc : h1.map (fun t => (t.role, t.content)) =
      h2.map (fun t => (t.role, t.content))) :
    compose p (some h1) u = compose p (some h2) u := by
  rw [compose_some, compose_some, joinLines_role_content h1 h2 hrc]

/-- C7 witness: dropping a concrete analysis field leaves the prompt
unchanged. -/
theorem c7_analysis_independence_witness :
    compose "P" (some [⟨"assistant", "b", some "SECRET-ANALYSIS"⟩]) "q" =
      compose "P" (some [⟨"assistant", "b", none⟩]) "q" :=
  c7_analysis_independence "P" "q" _ _ (by decide)

/-- C8 counterexample: with the credential missing, get_ai_response does fail
before any attempt (no prompt sent), but its return value equals the return
value of an ordinary transport failure — None in both runs — so the claimed
distinct ConfigError kind does not exist and the caller cannot tell the two
apart. -/
theorem c8_counterexample :
    (get_ai_response none (fun _ => ApiOutcome.ok "ans") "q" STUDENT_PERSONA
      none).result =
      (get_ai_response (some "k") (fun _ => ApiOutcome.failure "boom") "q"
        STUDENT_PERSONA none).result ∧
    (get_ai_response none (fun _ => ApiOutcome.ok "ans") "q" STUDENT_PERSONA
      none).sent_prompts = [] :=
  ⟨rfl, rfl⟩

/-- C8 (amended): if the credential is missing, every completion call fails
before any endpoint attempt — zero prompts sent, no retry, no sleep — but
the failure is the generic None result produced through the same generic
exception handler as any other failure, not a distinct ConfigError kind. -/
theorem c8_missing_key_fails_fast (outs : Nat → ApiOutcome) (p per : String)
    (ch : Option (List Turn)) :
    (get_ai_response none outs p per ch).result = none ∧
    (get_ai_response none outs p per ch).sent_prompts = [] ∧
    (get_ai_response none outs p per ch).sleeps = [] :=
  ⟨rfl, rfl, rfl⟩

/-- C9: in every reachable session state the log is append-only — each
handler run extends the previous log as a prefix — a turn carries an
analysis only if it is an assistant turn, and a turn appended with analysis
`a` is appended only when the integrity check was enabled and the stage-2
call on that turn's content succeeded with `a`. -/
theorem c9_append_only_analysis :
    (∀ (s : List Turn) (inp : StepInput), s <+: (chatStep s inp).messages) ∧
    (∀ s : List Turn, Reachable s → AnalysisInv s) ∧
    (∀ (s : List Turn) (inp : StepInput) (t : Turn),
      t ∈ (chatStep s inp).messages.drop s.length → ∀ a, t.analysis = some a →
        t.role = "assistant" ∧ inp.run_integrity_check = true ∧
        (get_ai_response inp.secrets inp.stage2 t.content
          INTEGRITY_CHECKER_PERSONA none).result = some a) := by
  refine ⟨?_, ?_, ?_⟩
  · intro s inp
    rcases chatStep_messages_shape s inp with h | ⟨p, h⟩ | ⟨p, sr, h⟩ |
      ⟨p, sr, a, _, _, h⟩ <;> rw [h]
    · exact ⟨[⟨"user", p, none⟩], rfl⟩
    · exact ⟨[⟨"user", p, none⟩, ⟨"assistant", sr, none⟩], by simp⟩
    · exact ⟨[⟨"user", p, none⟩, ⟨"assistant", sr, some a⟩], by simp⟩
  · intro s hreach
    induction hreach with
    | start => intro t ht _; exact absurd ht (List.not_mem_nil t)
    | next s' inp _ ih =>
        rcases chatStep_messages_shape s' inp with h | ⟨p, h⟩ | ⟨p, sr, h⟩ |
          ⟨p, sr, a, _, _, h⟩ <;> rw [h] <;> intro t ht hsome
        · exact ih t ht hsome
        · rcases List.mem_append.1 ht with h' | h'
          · exact ih t h' hsome
          · simp at h'
            rw [h'] at hsome
            simp at hsome
        · rcases List.mem_append.1 ht with h' | h'
          · rcases List.mem_append.1 h' with h'' | h''
            · exact ih t h'' hsome
            · simp at h''
              rw [h''] at hsome
              simp at hsome
          · simp at h'
            rw [h']
        · rcases List.mem_append.1 ht with h' | h'
          · rcases List.mem_append.1 h' with h'' | h''
            · exact ih t h'' hsome
            · simp at h''
              rw [h''] at hsome
              simp at hsome
          · simp at h'
            rw [h']
  · intro s inp t ht a ha
    rcases chatStep_messages_shape s inp with h | ⟨p, h⟩ | ⟨p, sr, h⟩ |
      ⟨p, sr, a2, hON, h2, h⟩ <;> rw [h] at ht
    · rw [List.drop_length] at ht
      exact absurd ht (List.not_mem_nil t)
    · rw [List.drop_left] at ht
      simp at ht
      rw [ht] at ha
      simp at ha
    · rw [List.append_assoc, List.drop_left] at ht
      simp at ht
      rcases ht with ht | ht <;> rw [ht] at ha <;> simp at ha
    · rw [List.append_assoc, List.drop_left] at ht
      simp at ht
      rcases ht with ht | ht
      · rw [ht] at ha
        simp at ha
      · rw [ht] at ha ⊢
        simp at ha
        rw [ha] at h2
        exact ⟨rfl, hON, h2⟩

/-- C9 witness: the first conjunct at a concrete run, and the invariant at a
concrete reachable state (one successful turn from the fresh session). -/
theorem c9_append_only_analysis_witness :
    ([] : List Turn) <+: (chatStep [] inpBothOk).messages ∧
    AnalysisInv (chatStep [] inpBothOk).messages :=
  ⟨c9_append_only_analysis.1 [] inpBothOk,
   c9_append_only_analysis.2.1 _ (Reachable.next [] inpBothOk Reachable.start)⟩

/-- C10: a falsy chat_input value (no submission, or the empty string) leaves
the session log untouched, shows no banner and issues no completion call;
and every get_ai_response invocation the handler makes carries a non-empty
prompt text, so compose's non-empty userText precondition holds at stage 1. -/
theorem c10_empty_input_discarded :
    (∀ (s : List Turn) (inp : StepInput),
      (inp.prompt = none ∨ inp.prompt = some "") →
        (chatStep s inp).messages = s ∧ (chatStep s inp).calls = [] ∧
        (chatStep s inp).events = []) ∧
    (∀ (s : List Turn) (inp : StepInput) (c : CallRecord),
      c ∈ (chatStep s inp).calls → c.prompt ≠ "") := by
  constructor
  · intro s inp hp
    rcases hp with hp | hp
    · rw [chatStep_no_prompt s inp hp]
      exact ⟨rfl, rfl, rfl⟩
    · rw [chatStep_empty_prompt s inp hp]
      exact ⟨rfl, rfl, rfl⟩
  · intro s inp c hc
    cases hp : inp.prompt with
    | none =>
        rw [chatStep_no_prompt s inp hp] at hc
        exact absurd hc (List.not_mem_nil c)
    | some p =>
        by_cases hne : p = ""
        · rw [hne] at hp
          rw [chatStep_empty_prompt s inp hp] at hc
          exact absurd hc (List.not_mem_nil c)
        · rw [chatStep_eq_body s inp p hp hne] at hc
          rcases chatBody_calls_shape s inp p with h | ⟨sr, hsr, h⟩ <;>
            rw [h] at hc
          · simp at hc
            rw [hc]
            exact hne
          · simp at hc
            rcases hc with hc | hc <;> rw [hc]
            · exact hne
            · exact hsr

/-- C10 witness: the empty submission leaves everything unchanged, and the
concrete stage-1 call record carries a non-empty prompt. -/
theorem c10_empty_input_discarded_witness :
    ((chatStep [] inpEmptyPrompt).messages = [] ∧
     (chatStep [] inpEmptyPrompt).calls = [] ∧
     (chatStep [] inpEmptyPrompt).events = []) ∧
    (⟨"zzq", STUDENT_PERSONA, some [⟨"user", "zzq", none⟩]⟩ :
      CallRecord).prompt ≠ "" :=
  ⟨c10_empty_input_discarded.1 [] inpEmptyPrompt (Or.inr rfl),
   c10_empty_input_discarded.2 [] inpHistoryProbe _ (by decide)⟩
